import Mathlib

/-!
# Verification of the paowa-bot dispatch / permission / lifecycle core

Shallow embedding of the repository's TypeScript core:

* `src/core/permission.ts` — `PermissionManager` (sqlite-backed cascading
  permission rules; tables are modelled as association lists, the point
  queries as `List.find?`).
* `src/core/bot.ts` — `parseCommandName`, `Bot.registerCommand`,
  `Bot.handleMessage` (command-table rebuild, argument validation), and the
  `Context` reply builder (`commit`, `at`, `text`).

Ids are modelled as `Nat`; JavaScript truthiness on a number is `≠ 0`, on an
optional value is `Option.isSome`, on a nullable-text column is `Option`.
-/

/-! ## Permission store model (`src/core/permission.ts`) -/

/-- Permission levels, ordered `user < admin < owner`
(the `levels` array in `checkPermission`). -/
inductive PermissionLevel where
  | user
  | admin
  | owner
deriving DecidableEq, Repr

/-- `levels.indexOf` for the array `["user", "admin", "owner"]`. -/
def levelIndex : PermissionLevel → Nat
  | .user => 0
  | .admin => 1
  | .owner => 2

/-- The `type` column of `global_blacklist`. -/
inductive BlacklistType where
  | user
  | group
deriving DecidableEq, Repr

/-- One row of the `command_permissions` table.  The four list columns are
TEXT columns holding either NULL (`none`) or a JSON-encoded list of ids
(`some l`, which is truthy in JS even when the list is empty). -/
structure CommandRow where
  plugin_name : String
  command_name : String
  disabled : Bool
  level : Option PermissionLevel
  users : Option (List Nat)
  groups : Option (List Nat)
  blacklisted_users : Option (List Nat)
  blacklisted_groups : Option (List Nat)
deriving DecidableEq, Repr

/-- One row of the `group_permissions` table; `plugin_name` and
`command_name` are NULLABLE. -/
structure GroupRow where
  group_id : Nat
  plugin_name : Option String
  command_name : Option String
  disabled : Bool
deriving DecidableEq, Repr

/-- The five tables created by `PermissionManager.initDb`, as association
lists (a SQL `.get` point query is the first matching row). -/
structure PermDB where
  user_permissions : List (Nat × PermissionLevel)
  global_blacklist : List (Nat × BlacklistType)
  plugin_permissions : List (String × Bool)
  command_permissions : List CommandRow
  group_permissions : List GroupRow
deriving DecidableEq, Repr

/-- The empty database. -/
def PermDB.empty : PermDB :=
  { user_permissions := []
    global_blacklist := []
    plugin_permissions := []
    command_permissions := []
    group_permissions := [] }

/-- `CommandPermissionConfig` from `src/core/types.ts` as used by
`checkPermission` and `setCommandPermission`: every field is optional in
TypeScript; a missing `disabled` is falsy. -/
structure CommandPermissionConfig where
  disabled : Bool := false
  level : Option PermissionLevel := none
  users : Option (List Nat) := none
  groups : Option (List Nat) := none
  blacklistedUsers : Option (List Nat) := none
  blacklistedGroups : Option (List Nat) := none
deriving DecidableEq, Repr

/-- The slice of `Context` that `checkPermission` reads
(`ctx.sender_id`, `ctx.group_id`, `ctx.is_group`). -/
structure PermCtx where
  sender_id : Nat
  group_id : Nat
  is_group : Bool
deriving DecidableEq, Repr

/-- `PermissionManager.isSelf`: `this.selfId > 0 && userId === this.selfId`. -/
def isSelf (selfId userId : Nat) : Bool :=
  decide (0 < selfId) && decide (userId = selfId)

/-- `SELECT level FROM user_permissions WHERE user_id = ?`, defaulting to
`"user"` when no row exists (`PermissionManager.getUserLevel`). -/
def getUserLevel (db : PermDB) (userId : Nat) : PermissionLevel :=
  match db.user_permissions.find? (fun r => r.1 = userId) with
  | some r => r.2
  | none => .user

/-- `SELECT disabled FROM group_permissions WHERE group_id = ? AND
plugin_name IS NULL AND command_name IS NULL`, read through
`groupRow?.disabled` truthiness. -/
def groupDisabledQuery (db : PermDB) (groupId : Nat) : Bool :=
  match db.group_permissions.find?
      (fun r => r.group_id = groupId ∧ r.plugin_name = none ∧ r.command_name = none) with
  | some r => r.disabled
  | none => false

/-- `SELECT disabled FROM group_permissions WHERE group_id = ? AND
plugin_name = ? AND command_name IS NULL`. -/
def groupPluginDisabledQuery (db : PermDB) (groupId : Nat) (pluginName : String) : Bool :=
  match db.group_permissions.find?
      (fun r => r.group_id = groupId ∧ r.plugin_name = some pluginName ∧ r.command_name = none) with
  | some r => r.disabled
  | none => false

/-- `SELECT disabled FROM group_permissions WHERE group_id = ? AND
plugin_name = ? AND command_name = ?`. -/
def groupCommandDisabledQuery (db : PermDB) (groupId : Nat)
    (pluginName commandName : String) : Bool :=
  match db.group_permissions.find?
      (fun r => r.group_id = groupId ∧ r.plugin_name = some pluginName ∧
        r.command_name = some commandName) with
  | some r => r.disabled
  | none => false

/-- `SELECT 1 FROM global_blacklist WHERE target_id = ? AND type = 'user'`
(truthiness of the returned row). -/
def userBlacklistQuery (db : PermDB) (userId : Nat) : Bool :=
  (db.global_blacklist.find? (fun r => r.1 = userId ∧ r.2 = BlacklistType.user)).isSome

/-- `SELECT 1 FROM global_blacklist WHERE target_id = ? AND type = 'group'`. -/
def groupBlacklistQuery (db : PermDB) (groupId : Nat) : Bool :=
  (db.global_blacklist.find? (fun r => r.1 = groupId ∧ r.2 = BlacklistType.group)).isSome

/-- `SELECT disabled FROM plugin_permissions WHERE plugin_name = ?`, read
through `pluginRow?.disabled` truthiness. -/
def pluginDisabledQuery (db : PermDB) (pluginName : String) : Bool :=
  match db.plugin_permissions.find? (fun r => r.1 = pluginName) with
  | some r => r.2
  | none => false

/-- `SELECT * FROM command_permissions WHERE plugin_name = ? AND
command_name = ?`. -/
def findCommandRow (db : PermDB) (pluginName commandName : String) : Option CommandRow :=
  db.command_permissions.find?
    (fun r => r.plugin_name = pluginName ∧ r.command_name = commandName)

/-- The `if (config) { ... }` block of `checkPermission`: the checks run
against the command's compile-time default `CommandPermissionConfig`.
Note the whitelist checks additionally require `length > 0`
(`config.users && config.users.length > 0`), unlike the persisted row. -/
def configChecks (db : PermDB) (cfg : CommandPermissionConfig)
    (userId groupId : Nat) (isGroup : Bool) : Bool :=
  if cfg.disabled then false
  else if (match cfg.blacklistedUsers with
    | some l => decide (userId ∈ l)
    | none => false) then false
  else if isGroup && (match cfg.blacklistedGroups with
    | some l => decide (groupId ∈ l)
    | none => false) then false
  else if (match cfg.users with
    | some l => decide (0 < l.length) && !(decide (userId ∈ l))
    | none => false) then false
  else if isGroup && (match cfg.groups with
    | some l => decide (0 < l.length) && !(decide (groupId ∈ l))
    | none => false) then false
  else if (match cfg.level with
    | some req => decide (levelIndex (getUserLevel db userId) < levelIndex req)
    | none => false) then false
  else true

/-- The `if (commandRow) { ... }` block of `checkPermission`: the checks run
against the persisted `command_permissions` row, falling through to the
default-config checks (`k`) when none of them denies. -/
def commandRowChecks (db : PermDB) (row : CommandRow)
    (userId groupId : Nat) (isGroup : Bool) (k : Bool) : Bool :=
  if row.disabled then false
  else if (match row.blacklisted_users with
    | some l => decide (userId ∈ l)
    | none => false) then false
  else if isGroup && (match row.blacklisted_groups with
    | some l => decide (groupId ∈ l)
    | none => false) then false
  else if (match row.users with
    | some l => !(decide (userId ∈ l))
    | none => false) then false
  else if isGroup && (match row.groups with
    | some l => !(decide (groupId ∈ l))
    | none => false) then false
  else if (match row.level with
    | some req => decide (levelIndex (getUserLevel db userId) < levelIndex req)
    | none => false) then false
  else k

/-- The `if (commandRow) { ... } / else fall through` step of
`checkPermission`: run the persisted-row checks when a row was found,
otherwise continue with `k` (the default-config step). -/
def rowStep (db : PermDB) (row? : Option CommandRow)
    (userId groupId : Nat) (isGroup : Bool) (k : Bool) : Bool :=
  match row? with
  | some row => commandRowChecks db row userId groupId isGroup k
  | none => k

/-- The `if (config) { ... }` step of `checkPermission`: run the
default-config checks when a default config was passed, else allow. -/
def configStep (db : PermDB) (cfg? : Option CommandPermissionConfig)
    (userId groupId : Nat) (isGroup : Bool) : Bool :=
  match cfg? with
  | some cfg => configChecks db cfg userId groupId isGroup
  | none => true

/-- `PermissionManager.checkPermission`, translated clause by clause:
self-bypass, then (group events) the three group-disable gates, then the
global user/group blacklists, then the plugin-disable flag, then the
persisted `command_permissions` row (when one exists), then the
compile-time default config (when one was passed) — note that the source
initialises `let config = defaultPermission` once and the `if (config)`
block runs whether or not a persisted row was found. -/
def checkPermission (db : PermDB) (selfId : Nat) (ctx : PermCtx)
    (pluginName commandName : String)
    (defaultPermission : Option CommandPermissionConfig) : Bool :=
  if isSelf selfId ctx.sender_id then true
  else
    if ctx.is_group && groupDisabledQuery db ctx.group_id then false
    else if ctx.is_group && groupPluginDisabledQuery db ctx.group_id pluginName then false
    else if ctx.is_group &&
        groupCommandDisabledQuery db ctx.group_id pluginName commandName then false
    else if userBlacklistQuery db ctx.sender_id then false
    else if ctx.is_group && groupBlacklistQuery db ctx.group_id then false
    else if pluginDisabledQuery db pluginName then false
    else
      rowStep db (findCommandRow db pluginName commandName)
        ctx.sender_id ctx.group_id ctx.is_group
        (configStep db defaultPermission ctx.sender_id ctx.group_id ctx.is_group)

/-- The `if (this.selfId > 0) { if (config.users?.includes(this.selfId))
config.users = config.users.filter(...) }` scrubbing step of
`setCommandPermission`, applied to one optional id list. -/
def scrubSelf (selfId : Nat) (l? : Option (List Nat)) : Option (List Nat) :=
  if 0 < selfId then
    match l? with
    | some l => if selfId ∈ l then some (l.filter (fun id => id ≠ selfId)) else some l
    | none => none
  else l?

/-- `PermissionManager.setCommandPermission`: when the self id is known
(`selfId > 0`) the self id is filtered out of `config.users` and
`config.blacklistedUsers` (only when present there); the row is then
written with `INSERT OR REPLACE` — modelled by prepending the new row and
dropping any row with the same `(plugin_name, command_name)` key.  The
`groups` and `blacklistedGroups` lists are stored as given. -/
def setCommandPermission (db : PermDB) (selfId : Nat)
    (pluginName commandName : String) (config : CommandPermissionConfig) : PermDB :=
  { db with
    command_permissions :=
      { plugin_name := pluginName
        command_name := commandName
        disabled := config.disabled
        level := config.level
        users := scrubSelf selfId config.users
        groups := config.groups
        blacklisted_users := scrubSelf selfId config.blacklistedUsers
        blacklisted_groups := config.blacklistedGroups } ::
      db.command_permissions.filter
        (fun r => ¬(r.plugin_name = pluginName ∧ r.command_name = commandName)) }

/-- A scrubbed list never contains the (known) self id. -/
theorem scrubSelf_not_mem (selfId : Nat) (l? : Option (List Nat))
    (hpos : 0 < selfId) : ∀ l, scrubSelf selfId l? = some l → selfId ∉ l := by
  intro l hl
  rw [scrubSelf.eq_def, if_pos hpos] at hl
  cases l? with
  | none => exact Option.noConfusion hl
  | some l0 =>
    by_cases hm : selfId ∈ l0
    · simp only [if_pos hm, Option.some.injEq] at hl
      subst hl
      simp
    · simp only [if_neg hm, Option.some.injEq] at hl
      subst hl
      exact hm

/-- Querying the row just written by `setCommandPermission` returns the
scrubbed row. -/
theorem findCommandRow_setCommandPermission (db : PermDB) (selfId : Nat)
    (pluginName commandName : String) (config : CommandPermissionConfig) :
    findCommandRow (setCommandPermission db selfId pluginName commandName config)
        pluginName commandName =
      some
        { plugin_name := pluginName
          command_name := commandName
          disabled := config.disabled
          level := config.level
          users := scrubSelf selfId config.users
          groups := config.groups
          blacklisted_users := scrubSelf selfId config.blacklistedUsers
          blacklisted_groups := config.blacklistedGroups } := by
  unfold setCommandPermission findCommandRow
  rw [List.find?_cons_of_pos _ (by simp)]

/-! ### A factored characterisation of `checkPermission`

`checkPermissionSpec` states the decision as one conjunction: allow iff the
caller is the bot itself, or every gate passes — the group gates, the two
global blacklists, the plugin-disable flag, the persisted-row checks (when
a row exists) **and** the default-config checks (when a config was given).
This is the corrected reading of spec §4.2 step 6: the default config is
consulted unconditionally, not only "if no persisted row overrode it". -/

/-- Factored form of `checkPermission` (see module comment above). -/
def checkPermissionSpec (db : PermDB) (selfId : Nat) (ctx : PermCtx)
    (pluginName commandName : String)
    (defaultPermission : Option CommandPermissionConfig) : Bool :=
  isSelf selfId ctx.sender_id ||
    (!(ctx.is_group && groupDisabledQuery db ctx.group_id) &&
     !(ctx.is_group && groupPluginDisabledQuery db ctx.group_id pluginName) &&
     !(ctx.is_group && groupCommandDisabledQuery db ctx.group_id pluginName commandName) &&
     !(userBlacklistQuery db ctx.sender_id) &&
     !(ctx.is_group && groupBlacklistQuery db ctx.group_id) &&
     !(pluginDisabledQuery db pluginName) &&
     rowStep db (findCommandRow db pluginName commandName)
       ctx.sender_id ctx.group_id ctx.is_group true &&
     configStep db defaultPermission ctx.sender_id ctx.group_id ctx.is_group)

/-- `commandRowChecks` with continuation `k` is the conjunction of the row
passing on its own and `k`. -/
theorem commandRowChecks_eq_and (db : PermDB) (row : CommandRow)
    (userId groupId : Nat) (isGroup : Bool) (k : Bool) :
    commandRowChecks db row userId groupId isGroup k =
      (commandRowChecks db row userId groupId isGroup true && k) := by
  unfold commandRowChecks
  split
  · simp
  · split
    · simp
    · split
      · simp
      · split
        · simp
        · split
          · simp
          · split
            · simp
            · simp

/-- `rowStep` with continuation `k` is the conjunction of the row step
passing on its own and `k`. -/
theorem rowStep_eq_and (db : PermDB) (row? : Option CommandRow)
    (userId groupId : Nat) (isGroup : Bool) (k : Bool) :
    rowStep db row? userId groupId isGroup k =
      (rowStep db row? userId groupId isGroup true && k) := by
  cases row? with
  | none => simp [rowStep]
  | some row =>
    show commandRowChecks db row userId groupId isGroup k =
      (commandRowChecks db row userId groupId isGroup true && k)
    exact commandRowChecks_eq_and db row userId groupId isGroup k

/-- `checkPermission` agrees with its factored characterisation on every
input. -/
theorem checkPermission_eq_spec (db : PermDB) (selfId : Nat) (ctx : PermCtx)
    (pluginName commandName : String)
    (defaultPermission : Option CommandPermissionConfig) :
    checkPermission db selfId ctx pluginName commandName defaultPermission =
      checkPermissionSpec db selfId ctx pluginName commandName defaultPermission := by
  unfold checkPermission checkPermissionSpec
  rw [rowStep_eq_and]
  generalize configStep db defaultPermission ctx.sender_id ctx.group_id ctx.is_group = cc
  generalize rowStep db (findCommandRow db pluginName commandName)
    ctx.sender_id ctx.group_id ctx.is_group true = rp
  generalize isSelf selfId ctx.sender_id = b0
  generalize groupDisabledQuery db ctx.group_id = q1
  generalize groupPluginDisabledQuery db ctx.group_id pluginName = q2
  generalize groupCommandDisabledQuery db ctx.group_id pluginName commandName = q3
  generalize userBlacklistQuery db ctx.sender_id = q4
  generalize groupBlacklistQuery db ctx.group_id = q5
  generalize pluginDisabledQuery db pluginName = q6
  generalize ctx.is_group = g
  revert cc rp b0 q1 q2 q3 q4 q5 q6 g
  decide

/-! ## Claims about the Permission Resolver -/

/-- Claim C1: for every permission check of a group or private event whose
caller is not the bot itself, if the caller's user id is in the global user
blacklist then `checkPermission` returns deny, even when that same user id
is also present in the matched command's persisted whitelist and in the
command's default-config whitelist: the blacklist is evaluated before, and
dominates, every whitelist. -/
theorem c1_global_blacklist_dominates_whitelist
    (db : PermDB) (selfId : Nat) (ctx : PermCtx)
    (pluginName commandName : String)
    (cfg : CommandPermissionConfig) (row : CommandRow) (us vs : List Nat)
    (hself : isSelf selfId ctx.sender_id = false)
    (hbl : userBlacklistQuery db ctx.sender_id = true)
    (hrow : findCommandRow db pluginName commandName = some row)
    (hrowWl : row.users = some us) (hmemRow : ctx.sender_id ∈ us)
    (hcfgWl : cfg.users = some vs) (hmemCfg : ctx.sender_id ∈ vs) :
    checkPermission db selfId ctx pluginName commandName (some cfg) = false := by
  rw [checkPermission_eq_spec]
  unfold checkPermissionSpec
  simp [hself, hbl]

/-- Database for the C1 witness: user 10 is globally blacklisted and also
whitelisted in the persisted row of command `("p", "c")`. -/
def c1db : PermDB :=
  { user_permissions := []
    global_blacklist := [(10, .user)]
    plugin_permissions := []
    command_permissions :=
      [{ plugin_name := "p", command_name := "c", disabled := false, level := none,
         users := some [10], groups := none,
         blacklisted_users := none, blacklisted_groups := none }]
    group_permissions := [] }

/-- Default config for the C1 witness: user 10 is on its whitelist too. -/
def c1cfg : CommandPermissionConfig := { users := some [10] }

/-- Witness for C1: caller 10 (not the bot, whose id is 1) is globally
blacklisted yet whitelisted both in the persisted row and in the default
config, and the check denies. -/
theorem c1_witness :
    isSelf 1 (10 : Nat) = false ∧
    userBlacklistQuery c1db 10 = true ∧
    checkPermission c1db 1 ⟨10, 0, false⟩ "p" "c" (some c1cfg) = false :=
  ⟨by decide, by decide,
    c1_global_blacklist_dominates_whitelist c1db 1 ⟨10, 0, false⟩ "p" "c"
      c1cfg
      { plugin_name := "p", command_name := "c", disabled := false, level := none,
        users := some [10], groups := none,
        blacklisted_users := none, blacklisted_groups := none }
      [10] [10] (by decide) (by decide) (by decide) (by decide) (by decide)
      (by decide) (by decide)⟩

/-- Counterexample to Claim C2 as stated: with `selfId = 0` (the
constructor default before `setSelfId` runs) and a caller whose
`sender_id` is also `0` (the `event.sender.user_id ?? 0` fallback),
`selfId == callerId` holds yet `checkPermission` returns deny when the
command's default config is disabled, because `isSelf` additionally
requires `this.selfId > 0`. -/
theorem c2_counterexample :
    (0 : Nat) = (PermCtx.mk 0 0 false).sender_id ∧
    checkPermission PermDB.empty 0 ⟨0, 0, false⟩ "p" "c"
      (some { disabled := true }) = false := by
  constructor
  · rfl
  · decide

/-- Claim C2 (amended): whenever the bot's self id is known (`selfId > 0`)
and the caller id equals it, `checkPermission` returns allow regardless of
the database contents, the command name, or the default permission
config. -/
theorem c2_self_bypass
    (db : PermDB) (selfId : Nat) (ctx : PermCtx)
    (pluginName commandName : String)
    (defaultPermission : Option CommandPermissionConfig)
    (hpos : 0 < selfId) (heq : ctx.sender_id = selfId) :
    checkPermission db selfId ctx pluginName commandName defaultPermission = true := by
  unfold checkPermission isSelf
  simp [heq, hpos]

/-- Database for the C2 witness: every deny rule that could apply to user 5
is present — global blacklist, plugin disable, disabled persisted row with
a blacklist naming 5, and a group-wide disable. -/
def c2db : PermDB :=
  { user_permissions := []
    global_blacklist := [(5, .user), (77, .group)]
    plugin_permissions := [("p", true)]
    command_permissions :=
      [{ plugin_name := "p", command_name := "c", disabled := true, level := some .owner,
         users := some [], groups := some [],
         blacklisted_users := some [5], blacklisted_groups := some [77] }]
    group_permissions := [⟨77, none, none, true⟩] }

/-- Witness for C2 (amended): the bot (id 5) calling its own command in a
blacklisted, disabled group is still allowed. -/
theorem c2_witness :
    (0 : Nat) < 5 ∧
    checkPermission c2db 5 ⟨5, 77, true⟩ "p" "c" (some { disabled := true }) = true :=
  ⟨by decide,
    c2_self_bypass c2db 5 ⟨5, 77, true⟩ "p" "c" (some { disabled := true })
      (by decide) (by decide)⟩

/-- The persisted row used by the C3 counterexample: it exists for
`("p", "c")` and none of its checks denies anybody. -/
def c3row : CommandRow :=
  { plugin_name := "p", command_name := "c", disabled := false, level := none,
    users := none, groups := none, blacklisted_users := none, blacklisted_groups := none }

/-- Database for the C3 counterexample: just the all-permissive persisted
row for `("p", "c")`. -/
def c3db : PermDB :=
  { user_permissions := []
    global_blacklist := []
    plugin_permissions := []
    command_permissions := [c3row]
    group_permissions := [] }

/-- Counterexample to Claim C3: a persisted row for `("p", "c")` exists and
imposes no deny (the check with no default config allows), yet passing a
disabled compile-time default config flips the decision to deny — the
default config is consulted, and contributes a deny, even though a
persisted row exists. -/
theorem c3_counterexample :
    findCommandRow c3db "p" "c" = some c3row ∧
    checkPermission c3db 0 ⟨1, 0, false⟩ "p" "c" none = true ∧
    checkPermission c3db 0 ⟨1, 0, false⟩ "p" "c" (some { disabled := true }) = false := by
  refine ⟨by decide, by decide, by decide⟩

/-- Claim C3 (amended): the compile-time default permission config is
consulted unconditionally, after the persisted-row checks, whether or not a
persisted row exists: `checkPermission` allows exactly when the caller is
the bot itself, or the group gates, global blacklists and plugin-disable
flag all pass, the persisted row (when one exists) imposes no deny, *and*
the default config (when one is given) imposes no deny. -/
theorem c3_default_config_always_consulted
    (db : PermDB) (selfId : Nat) (ctx : PermCtx)
    (pluginName commandName : String)
    (defaultPermission : Option CommandPermissionConfig) :
    checkPermission db selfId ctx pluginName commandName defaultPermission =
      checkPermissionSpec db selfId ctx pluginName commandName defaultPermission :=
  checkPermission_eq_spec db selfId ctx pluginName commandName defaultPermission

/-- Config handed to `setCommandPermission` in the C4 counterexample: the
bot's id 5 sits in all four lists. -/
def c4cfg : CommandPermissionConfig :=
  { users := some [5], groups := some [5],
    blacklistedUsers := some [5], blacklistedGroups := some [5] }

/-- Counterexample to Claim C4: with self id 5 known and 5 present in all
four lists of the given config, the persisted row still contains 5 in both
group lists — only the two *user* lists are scrubbed
(`setCommandPermission` filters `config.users` and
`config.blacklistedUsers`, never `config.groups` or
`config.blacklistedGroups`). -/
theorem c4_counterexample :
    findCommandRow (setCommandPermission PermDB.empty 5 "p" "c" c4cfg) "p" "c" =
      some { plugin_name := "p", command_name := "c", disabled := false, level := none,
             users := some [], groups := some [5],
             blacklisted_users := some [], blacklisted_groups := some [5] } := by
  decide

/-- Claim C4 (amended): for every config passed to `setCommandPermission`
while the bot's self id is known (`selfId > 0`), the persisted row contains
the bot's id in neither of the two *user* lists (whitelist and blacklist);
the two group lists are stored exactly as given. -/
theorem c4_self_scrubbed_from_user_lists
    (db : PermDB) (selfId : Nat) (pluginName commandName : String)
    (config : CommandPermissionConfig) (hpos : 0 < selfId) :
    ∃ row,
      findCommandRow (setCommandPermission db selfId pluginName commandName config)
          pluginName commandName = some row ∧
      (∀ l, row.users = some l → selfId ∉ l) ∧
      (∀ l, row.blacklisted_users = some l → selfId ∉ l) ∧
      row.groups = config.groups ∧
      row.blacklisted_groups = config.blacklistedGroups := by
  refine ⟨_, findCommandRow_setCommandPermission db selfId pluginName commandName config,
    ?_, ?_, rfl, rfl⟩
  · exact scrubSelf_not_mem selfId config.users hpos
  · exact scrubSelf_not_mem selfId config.blacklistedUsers hpos

/-- Witness for C4 (amended): applying the amended claim with self id 5 and
a config naming 5 everywhere. -/
theorem c4_witness :
    (0 : Nat) < 5 ∧
    (∃ row,
      findCommandRow (setCommandPermission PermDB.empty 5 "p" "c" c4cfg) "p" "c" =
        some row ∧
      (∀ l, row.users = some l → (5 : Nat) ∉ l) ∧
      (∀ l, row.blacklisted_users = some l → (5 : Nat) ∉ l) ∧
      row.groups = c4cfg.groups ∧
      row.blacklisted_groups = c4cfg.blacklistedGroups) :=
  ⟨by decide, c4_self_scrubbed_from_user_lists PermDB.empty 5 "p" "c" c4cfg (by decide)⟩

/-! ## Command Table model (`src/core/bot.ts`) -/

/-- JavaScript regex `\s` / `String.prototype.trim` whitespace
(WhiteSpace plus LineTerminator code points). -/
def jsWhitespace (c : Char) : Bool :=
  c = ' ' || c = '\t' || c = '\n' || c = '\r' || c = '\x0b' || c = '\x0c' ||
  c = '\u00A0' || c = '\u1680' ||
  (0x2000 ≤ c.toNat && c.toNat ≤ 0x200A) ||
  c = '\u2028' || c = '\u2029' || c = '\u202F' || c = '\u205F' ||
  c = '\u3000' || c = '\uFEFF'

/-- JavaScript line terminators — the code points regex `.` does not
match. -/
def jsLineTerminator (c : Char) : Bool :=
  c = '\n' || c = '\r' || c = '\u2028' || c = '\u2029'

/-- The character class `[\-\<\[]` of `parseCommandName`: the first char of
an option (`-`), required argument (`<`) or optional argument (`[`)
token. -/
def optionTokenChar (c : Char) : Bool :=
  c = '-' || c = '<' || c = '['

/-- Continuation of a `\s+[\-\<\[]` match after its first whitespace char:
zero or more further whitespace chars, then an option/argument token
char. -/
def wsThenTok : List Char → Bool
  | [] => false
  | c :: cs => optionTokenChar c || (jsWhitespace c && wsThenTok cs)

/-- Does `\s+[\-\<\[]` match at the head of the character list? -/
def matchesHere : List Char → Bool
  | [] => false
  | c :: cs => jsWhitespace c && wsThenTok cs

/-- What remains after the regex match starting at the head: the `\s+` run
and the token char are consumed, and the greedy `.*` consumes everything up
to (excluding) the next line terminator. -/
def dropMatchTail (l : List Char) : List Char :=
  match l.dropWhile jsWhitespace with
  | [] => []
  | _tok :: rest => rest.dropWhile (fun c => !jsLineTerminator c)

/-- `name.replace(/\s+([\-\<\[]).*/, "")`: delete the leftmost match of the
pattern (JS `replace` without the `g` flag replaces only the first
match). -/
def replaceFirstMatch : List Char → List Char
  | [] => []
  | c :: cs =>
    if matchesHere (c :: cs) then dropMatchTail (c :: cs)
    else c :: replaceFirstMatch cs

/-- `String.prototype.trim`. -/
def jsTrim (l : List Char) : List Char :=
  ((l.dropWhile jsWhitespace).reverse.dropWhile jsWhitespace).reverse

/-- `parseCommandName` from `src/core/bot.ts`: empty-falsy guard, the
regex replace, then `trim()`. -/
def parseCommandName (s : String) : String :=
  if s = "" then ""
  else String.mk (jsTrim (replaceFirstMatch s.toList))

/-- Truncation at the first `\s+[\-\<\[]` match — the behaviour Claim C6
ascribes to basename extraction ("removes everything from the first
whitespace-preceded `-`/`<`/`[` token onward"). -/
def truncateAtMatch : List Char → List Char
  | [] => []
  | c :: cs => if matchesHere (c :: cs) then [] else c :: truncateAtMatch cs

/-- Basename extraction as Claim C6 words it: cut the whole tail at the
first whitespace-preceded option/argument token and trim; with no such
token, just trim. -/
def claimBasename (s : String) : String :=
  String.mk (jsTrim (truncateAtMatch s.toList))

/-- On input free of line terminators, the regex replace truncates the
string at the start of the match: the greedy `.*` reaches the end, so
nothing of the tail survives. -/
theorem replaceFirstMatch_eq_truncate (l : List Char)
    (h : ∀ c ∈ l, jsLineTerminator c = false) :
    replaceFirstMatch l = truncateAtMatch l := by
  induction l with
  | nil => rfl
  | cons c cs ih =>
    by_cases hm : matchesHere (c :: cs) = true
    · simp only [replaceFirstMatch, truncateAtMatch, if_pos hm]
      unfold dropMatchTail
      cases hd : (c :: cs).dropWhile jsWhitespace with
      | nil => rfl
      | cons t rest =>
        have hsub : rest ⊆ c :: cs := by
          intro x hx
          have h1 : x ∈ (c :: cs).dropWhile jsWhitespace := by
            rw [hd]; exact List.mem_cons_of_mem t hx
          exact (List.dropWhile_sublist jsWhitespace).subset h1
        rw [List.dropWhile_eq_nil_iff]
        intro x hx
        simp [h x (hsub hx)]
    · simp only [replaceFirstMatch, truncateAtMatch, if_neg hm]
      exact congrArg (List.cons c)
        (ih (fun x hx => h x (List.mem_cons_of_mem c hx)))

/-- Claim C6 (amended): for every command-name string containing no line
terminator, basename extraction removes everything from the first
whitespace-preceded token starting with `-`, `<` or `[` onward and trims
surrounding whitespace; a name with no such token is returned trimmed.
(On a name containing a line terminator the regex `.` stops there, see the
counterexample.) -/
theorem c6_basename_extraction (s : String)
    (h : ∀ c ∈ s.toList, jsLineTerminator c = false) :
    parseCommandName s = claimBasename s := by
  unfold parseCommandName claimBasename
  by_cases he : s = ""
  · subst he; rfl
  · rw [if_neg he, replaceFirstMatch_eq_truncate s.toList h]

/-- The two examples named by the claim. -/
theorem parseCommandName_examples :
    parseCommandName "echo <msg>" = "echo" ∧
    parseCommandName "plugin enable <name>" = "plugin enable" := by
  refine ⟨by decide, by decide⟩

/-- Witness for C6 (amended), at the claim's own example input. -/
theorem c6_witness :
    (∀ c ∈ ("echo <msg>" : String).toList, jsLineTerminator c = false) ∧
    parseCommandName "echo <msg>" = claimBasename "echo <msg>" :=
  ⟨by decide, c6_basename_extraction "echo <msg>" (by decide)⟩

/-- Counterexample to Claim C6 as universally stated: on a name containing
a newline after the option token, JS `.` stops at the line terminator, so
the text after the newline survives the replace — the code yields
`"a\nc"` where the claim's "removes everything onward" reading yields
`"a"`. -/
theorem c6_counterexample :
    parseCommandName "a -b\nc" = "a\nc" ∧
    claimBasename "a -b\nc" = "a" ∧
    ("a\nc" : String) ≠ "a" := by
  refine ⟨by decide, by decide, by decide⟩

/-! ### Command Table rebuild (`Bot.registerCommand`) -/

/-- A command as `Bot.registerCommand` consumes it: its full invocation
pattern and its description. -/
structure BotCommand where
  name : String
  description : String
deriving DecidableEq, Repr

/-- A registered plugin as `Bot.registerCommand` reads it: `meta.name` and
the declared command list, iterated in declaration order. -/
structure BotPlugin where
  metaName : String
  commands : List BotCommand
deriving DecidableEq, Repr

/-- One `plugin.commands.forEach` body of `Bot.registerCommand`: compute
the basename `c = parseCommandName(cmd.name)`; if `this.commands.has(c)`,
warn and skip; otherwise `this.commands.set(c, cmd)` (a JS `Map.set` on a
fresh key appends in insertion order). -/
def registerStep (table : List (String × BotCommand)) (cmd : BotCommand) :
    List (String × BotCommand) :=
  if (table.find? (fun q => q.1 = parseCommandName cmd.name)).isSome then table
  else table ++ [(parseCommandName cmd.name, cmd)]

/-- `Bot.registerCommand`: clear the table, then iterate the plugins in
registration order, registering each plugin's commands in declaration
order. -/
def registerCommands (plugins : List BotPlugin) : List (String × BotCommand) :=
  plugins.foldl (fun t p => p.commands.foldl registerStep t) []

/-- `this.commands.get(basename)`-style lookup. -/
def tableGet (table : List (String × BotCommand)) (b : String) : Option BotCommand :=
  (table.find? (fun q => q.1 = b)).map (fun q => q.2)

/-- Lookup after one registration step: the old binding wins; a new binding
appears only under the new command's basename and only if that basename was
free. -/
theorem tableGet_registerStep (t : List (String × BotCommand)) (cmd : BotCommand)
    (b : String) :
    tableGet (registerStep t cmd) b =
      (tableGet t b <|>
        (if parseCommandName cmd.name = b then some cmd else none)) := by
  unfold registerStep tableGet
  by_cases hdup : (t.find? (fun q => q.1 = parseCommandName cmd.name)).isSome
  · rw [if_pos hdup]
    by_cases hb : parseCommandName cmd.name = b
    · subst hb
      obtain ⟨q, hq⟩ := Option.isSome_iff_exists.mp hdup
      rw [hq]
      simp
    · cases h : t.find? (fun q => q.1 = b) <;> simp [hb]
  · rw [if_neg hdup]
    rw [List.find?_append]
    by_cases hb : parseCommandName cmd.name = b
    · subst hb
      rw [Option.not_isSome_iff_eq_none] at hdup
      rw [hdup]
      simp
    · cases h : t.find? (fun q => q.1 = b) <;> simp [h, hb]

/-- Lookup after folding a whole command list: the table's old binding
wins, else the first command in declaration order whose basename is the
key. -/
theorem tableGet_foldl (cmds : List BotCommand) (t : List (String × BotCommand))
    (b : String) :
    tableGet (cmds.foldl registerStep t) b =
      (tableGet t b <|> cmds.find? (fun c => parseCommandName c.name = b)) := by
  induction cmds generalizing t with
  | nil => cases h : tableGet t b <;> simp [h]
  | cons c rest ih =>
    rw [List.foldl_cons, ih, tableGet_registerStep]
    by_cases hb : parseCommandName c.name = b <;>
      cases h : tableGet t b <;>
        simp [List.find?_cons, hb, h]

/-- One registration step keeps the key list duplicate-free. -/
theorem registerStep_keys_nodup (t : List (String × BotCommand)) (cmd : BotCommand)
    (h : (t.map Prod.fst).Nodup) : ((registerStep t cmd).map Prod.fst).Nodup := by
  unfold registerStep
  by_cases hdup : (t.find? (fun q => q.1 = parseCommandName cmd.name)).isSome
  · rw [if_pos hdup]; exact h
  · rw [if_neg hdup]
    rw [Option.not_isSome_iff_eq_none, List.find?_eq_none] at hdup
    rw [List.map_append, List.nodup_append]
    refine ⟨h, List.nodup_singleton _, ?_⟩
    intro k hk hk1
    simp only [List.map_cons, List.map_nil, List.mem_singleton] at hk1
    obtain ⟨q, hq, hq1⟩ := List.mem_map.mp hk
    exact hdup q hq (by simp [hq1, hk1])

/-- Folding a command list keeps the key list duplicate-free. -/
theorem foldl_keys_nodup (cmds : List BotCommand) (t : List (String × BotCommand))
    (h : (t.map Prod.fst).Nodup) :
    ((cmds.foldl registerStep t).map Prod.fst).Nodup := by
  induction cmds generalizing t with
  | nil => exact h
  | cons c rest ih => exact ih _ (registerStep_keys_nodup t c h)

/-- Rebuilding over the plugin list equals folding the concatenation of all
plugins' command lists. -/
theorem registerCommands_eq_foldl_bind (plugins : List BotPlugin) :
    registerCommands plugins =
      (plugins.flatMap (fun p => p.commands)).foldl registerStep [] := by
  unfold registerCommands
  suffices h : ∀ t, plugins.foldl (fun t p => p.commands.foldl registerStep t) t =
      (plugins.flatMap (fun p => p.commands)).foldl registerStep t from h []
  induction plugins with
  | nil => intro t; rfl
  | cons p ps ih =>
    intro t
    rw [List.foldl_cons, List.flatMap_cons, List.foldl_append, ih]

/-- Claim C5: after every rebuild of the Command Table over the registered
plugins, the basename keys are duplicate-free, and each basename maps to
exactly the *first* command (plugins in registration order, commands in
declaration order) whose parsed basename equals it — so when two commands
share a basename the earlier one is registered and stays queryable and the
later one is skipped, never overwriting an earlier registration. -/
theorem c5_duplicate_basename_first_wins (plugins : List BotPlugin) (b : String) :
    ((registerCommands plugins).map Prod.fst).Nodup ∧
    tableGet (registerCommands plugins) b =
      (plugins.flatMap (fun p => p.commands)).find?
        (fun c => parseCommandName c.name = b) := by
  constructor
  · rw [registerCommands_eq_foldl_bind]
    exact foldl_keys_nodup _ [] (by simp)
  · rw [registerCommands_eq_foldl_bind, tableGet_foldl]
    simp [tableGet]

/-! ## Dispatcher match-failure handling (the `catch` block of
`Bot.handleMessage`, usage-listing revision) -/

/-- Lexicographic comparison of character lists by code point — the order
JS `Array.prototype.sort()` uses on strings (comparison of code units;
identical for the characters at hand). -/
def charListLe : List Char → List Char → Bool
  | [], _ => true
  | _ :: _, [] => false
  | a :: as, b :: bs =>
    if a.toNat < b.toNat then true
    else if b.toNat < a.toNat then false
    else charListLe as bs

/-- JS default string ordering. -/
def jsStrLe (a b : String) : Bool :=
  charListLe a.toList b.toList

/-- JS `Array.prototype.sort()` on strings, as an insertion sort (same
sorted result; JS's algorithm is unspecified but the comparator is
total). -/
def insertSorted (a : String) : List String → List String
  | [] => [a]
  | b :: bs => if jsStrLe a b then a :: b :: bs else b :: insertSorted a bs

/-- Sort a string list by `jsStrLe`. -/
def sortStrings : List String → List String
  | [] => []
  | a :: as => insertSorted a (sortStrings as)

/-- `charListLe` is total. -/
theorem charListLe_total : ∀ (x y : List Char),
    charListLe x y = true ∨ charListLe y x = true := by
  intro x
  induction x with
  | nil => intro y; left; rfl
  | cons a as ih =>
    intro y
    cases y with
    | nil => right; rfl
    | cons b bs =>
      by_cases hab : a.toNat < b.toNat
      · left; simp [charListLe, hab]
      · by_cases hba : b.toNat < a.toNat
        · right; simp [charListLe, hba]
        · rcases ih bs with h | h
          · left; simp [charListLe, hab, hba, h]
          · right; simp [charListLe, hab, hba, h]

/-- `charListLe` is transitive. -/
theorem charListLe_trans : ∀ (x y z : List Char),
    charListLe x y = true → charListLe y z = true → charListLe x z = true := by
  intro x
  induction x with
  | nil => intro y z h1 h2; rfl
  | cons a as ih =>
    intro y z h1 h2
    cases y with
    | nil => simp [charListLe] at h1
    | cons b bs =>
      cases z with
      | nil => simp [charListLe] at h2
      | cons c cs =>
        simp only [charListLe] at h1 h2 ⊢
        rcases Nat.lt_trichotomy a.toNat b.toNat with hab | hab | hab
        · rcases Nat.lt_trichotomy b.toNat c.toNat with hbc | hbc | hbc
          · rw [if_pos (Nat.lt_trans hab hbc)]
          · rw [if_pos (by omega)]
          · rw [if_neg (by omega), if_pos hbc] at h2
            exact absurd h2 (by simp)
        · rw [if_neg (by omega), if_neg (by omega)] at h1
          rcases Nat.lt_trichotomy b.toNat c.toNat with hbc | hbc | hbc
          · rw [if_pos (by omega)]
          · rw [if_neg (by omega), if_neg (by omega)] at h2
            rw [if_neg (by omega), if_neg (by omega)]
            exact ih bs cs h1 h2
          · rw [if_neg (by omega), if_pos hbc] at h2
            exact absurd h2 (by simp)
        · rw [if_neg (by omega), if_pos hab] at h1
          exact absurd h1 (by simp)

/-- `jsStrLe` is total. -/
theorem jsStrLe_total (a b : String) : jsStrLe a b = true ∨ jsStrLe b a = true :=
  charListLe_total a.toList b.toList

/-- `jsStrLe` is transitive. -/
theorem jsStrLe_trans (a b c : String)
    (h1 : jsStrLe a b = true) (h2 : jsStrLe b c = true) : jsStrLe a c = true :=
  charListLe_trans a.toList b.toList c.toList h1 h2

/-- Inserting into a list is a permutation of consing. -/
theorem insertSorted_perm (a : String) (l : List String) :
    (insertSorted a l).Perm (a :: l) := by
  induction l with
  | nil => exact List.Perm.refl _
  | cons b bs ih =>
    rw [insertSorted]
    by_cases hab : jsStrLe a b = true
    · rw [if_pos hab]
    · rw [if_neg hab]
      exact (ih.cons b).trans (List.Perm.swap a b bs)

/-- `sortStrings` permutes its input. -/
theorem sortStrings_perm (l : List String) : (sortStrings l).Perm l := by
  induction l with
  | nil => exact List.Perm.refl _
  | cons a as ih =>
    rw [sortStrings]
    exact (insertSorted_perm a (sortStrings as)).trans (ih.cons a)

/-- Insertion preserves sortedness. -/
theorem insertSorted_sorted (a : String) (l : List String)
    (h : l.Sorted (fun x y => jsStrLe x y = true)) :
    (insertSorted a l).Sorted (fun x y => jsStrLe x y = true) := by
  induction l with
  | nil => simp [insertSorted]
  | cons b bs ih =>
    rw [insertSorted]
    by_cases hab : jsStrLe a b = true
    · rw [if_pos hab]
      refine List.Pairwise.cons ?_ h
      intro x hx
      rcases List.mem_cons.mp hx with rfl | hx
      · exact hab
      · exact jsStrLe_trans a b x hab (List.rel_of_sorted_cons h x hx)
    · rw [if_neg hab]
      have hba : jsStrLe b a = true := by
        rcases jsStrLe_total a b with h1 | h1
        · exact absurd h1 hab
        · exact h1
      refine List.Pairwise.cons ?_ (ih h.of_cons)
      intro x hx
      rcases List.mem_cons.mp ((insertSorted_perm a bs).mem_iff.mp hx) with rfl | hx
      · exact hba
      · exact List.rel_of_sorted_cons h x hx

/-- `sortStrings` sorts. -/
theorem sortStrings_sorted (l : List String) :
    (sortStrings l).Sorted (fun x y => jsStrLe x y = true) := by
  induction l with
  | nil => exact List.Pairwise.nil
  | cons a as ih => exact insertSorted_sorted a (sortStrings as) ih

/-- A command as stored in the full-name-keyed command map read by the
usage-listing `handleMessage`: full `name` and the derived `root` (first
token of the basename). -/
structure TableCmd where
  name : String
  root : String
deriving DecidableEq, Repr

/-- The error thrown by the breadc matcher, as the catch block inspects it:
whether it is a `ParseError` instance, and its `message` string. -/
structure MatchError where
  isParseError : Bool
  message : String
deriving DecidableEq, Repr

/-- Modelled from the spec: `parseCommandBasename` lives in the
repository's types module, which is absent from this source snapshot; per
spec §8, basename extraction strips everything from the first `-`/`<`/`[`
token onward and trims whitespace — the same extraction implemented by
`parseCommandName`. -/
def parseCommandBasename (s : String) : String :=
  parseCommandName s

/-- The `" - " + cmd.name` lines collected by the unknown-sub-command
branch: one line per command whose `root` equals `argv[0]`, in map
iteration order. -/
def rootLines (commands : List (String × TableCmd)) (root : String) : List String :=
  commands.filterMap
    (fun q => if q.2.root = root then some (" - " ++ q.2.name) else none)

/-- The reply text of the unknown-sub-command branch: `"Usage:\n"` plus the
collected lines after `cmds.sort()`, joined with newlines. -/
def usageText (commands : List (String × TableCmd)) (argv0 : String) : String :=
  "Usage:\n" ++ String.intercalate "\n" (sortStrings (rootLines commands argv0))

/-- Outcome of the catch block: a reply was sent and dispatch stopped, or
the error was only logged and dispatch falls through to the
message-handler loop. -/
inductive MatchFailOutcome where
  | stopped (replyText : String)
  | fallThroughToHandlers
deriving DecidableEq, Repr

/-- The `catch (e)` block of the usage-listing `handleMessage`: a
`ParseError` whose parsed basename is a prefix of some registered full name
replies `"Invalid command"` and stops; otherwise an error with message
`"Unknown sub-command"` replies the sorted usage listing of all commands
rooted at `argv[0]` and stops; any other error is logged and dispatch
falls through to the message handlers. -/
def handleMatchError (commands : List (String × TableCmd)) (argv : List String)
    (e : MatchError) : MatchFailOutcome :=
  match
    (if e.isParseError then
      commands.find? (fun q =>
        q.1.startsWith (parseCommandBasename (String.intercalate " " argv)))
    else none) with
  | some q => .stopped ("Invalid command:\n" ++ q.2.name)
  | none =>
    if e.message = "Unknown sub-command" then
      .stopped (usageText commands (argv.headD ""))
    else .fallThroughToHandlers

/-- Claim C7: when the matcher signals an unknown sub-command under a known
root (a non-`ParseError` error with message `"Unknown sub-command"`), the
dispatcher replies with a usage listing containing exactly the commands
sharing root `argv[0]`, sorted lexicographically, and stops — it does not
fall through to the message handlers. -/
theorem c7_unknown_subcommand_usage_listing
    (commands : List (String × TableCmd)) (argv : List String) (e : MatchError)
    (hpe : e.isParseError = false)
    (hmsg : e.message = "Unknown sub-command")
    (hroot : ∃ q ∈ commands, q.2.root = argv.headD "") :
    ∃ l, handleMatchError commands argv e =
        .stopped ("Usage:\n" ++ String.intercalate "\n" l) ∧
      l.Perm (rootLines commands (argv.headD "")) ∧
      l.Sorted (fun a b : String => jsStrLe a b = true) ∧
      handleMatchError commands argv e ≠ .fallThroughToHandlers := by
  refine ⟨sortStrings (rootLines commands (argv.headD "")), ?_, ?_, ?_, ?_⟩
  · unfold handleMatchError usageText
    rw [hpe]
    simp [hmsg]
  · exact sortStrings_perm _
  · exact sortStrings_sorted _
  · unfold handleMatchError
    rw [hpe]
    simp [hmsg]

/-- The spec's own scenario: under root `"plugin"` with commands
`"plugin enable <n>"` and `"plugin disable <n>"` (registered in that
order), input `"plugin frobnicate"` yields a usage reply listing both,
sorted (`disable` before `enable`). -/
theorem usage_listing_scenario :
    handleMatchError
      [("plugin enable <n>", ⟨"plugin enable <n>", "plugin"⟩),
       ("plugin disable <n>", ⟨"plugin disable <n>", "plugin"⟩)]
      ["plugin", "frobnicate"]
      ⟨false, "Unknown sub-command"⟩ =
    .stopped "Usage:\n - plugin disable <n>\n - plugin enable <n>" := by
  decide

/-- Witness for C7, at the spec's scenario input. -/
theorem c7_witness :
    ((false, "Unknown sub-command") = (false, "Unknown sub-command") ∧
      (∃ q ∈ [("plugin enable <n>", (⟨"plugin enable <n>", "plugin"⟩ : TableCmd)),
              ("plugin disable <n>", ⟨"plugin disable <n>", "plugin"⟩)],
        q.2.root = (["plugin", "frobnicate"].headD ""))) ∧
    ∃ l, handleMatchError
        [("plugin enable <n>", ⟨"plugin enable <n>", "plugin"⟩),
         ("plugin disable <n>", ⟨"plugin disable <n>", "plugin"⟩)]
        ["plugin", "frobnicate"] ⟨false, "Unknown sub-command"⟩ =
        .stopped ("Usage:\n" ++ String.intercalate "\n" l) ∧
      l.Perm (rootLines
        [("plugin enable <n>", ⟨"plugin enable <n>", "plugin"⟩),
         ("plugin disable <n>", ⟨"plugin disable <n>", "plugin"⟩)]
        (["plugin", "frobnicate"].headD "")) ∧
      l.Sorted (fun a b : String => jsStrLe a b = true) ∧
      handleMatchError
        [("plugin enable <n>", ⟨"plugin enable <n>", "plugin"⟩),
         ("plugin disable <n>", ⟨"plugin disable <n>", "plugin"⟩)]
        ["plugin", "frobnicate"] ⟨false, "Unknown sub-command"⟩ ≠
        .fallThroughToHandlers :=
  ⟨⟨rfl, by decide⟩,
    c7_unknown_subcommand_usage_listing _ _ ⟨false, "Unknown sub-command"⟩
      rfl rfl (by decide)⟩

/-! ## Argument validation (`executeCommand` in `Bot.handleMessage`) -/

/-- A parsed argument value — models the typed output of a zod schema. -/
inductive ArgValue where
  | str (s : String)
  | num (n : Int)
deriving DecidableEq, Repr

/-- A zod schema as the validation code uses it: `schema.parse(token)`
either returns a typed value or throws a `ZodError` carrying its list of
issue messages.  Indexing `rawArgs[i]` past the end of the token list is
`undefined` in JS, hence the `Option String` input. -/
def ArgSchema := Option String → Except (List String) ArgValue

/-- A command's `args` declaration: absent, a single schema, or a tuple of
schemas (`Array.isArray(cmd.args)`). -/
inductive ArgsDecl where
  | noArgs
  | single (s : ArgSchema)
  | tuple (ss : List ArgSchema)

/-- `cmd.args.map((schema, i) => schema.parse(rawArgs[i]))` with JS
exception semantics: the traversal aborts at the first schema whose
`parse` throws, and that error alone propagates out of the `map`. -/
def runTupleSchemas : List ArgSchema → List String → Nat → Except (List String) (List ArgValue)
  | [], _, _ => .ok []
  | s :: rest, raw, i =>
    match s raw[i]? with
    | .error issues => .error issues
    | .ok v =>
      match runTupleSchemas rest raw (i + 1) with
      | .error issues => .error issues
      | .ok vs => .ok (v :: vs)

/-- The argument-validation step of `executeCommand`: a tuple declaration
validates position by position, a single schema validates only
`rawArgs[0]`, no declaration validates nothing. -/
def validateArgs : ArgsDecl → List String → Except (List String) (List ArgValue)
  | .noArgs, _ => .ok []
  | .single s, raw =>
    match s raw[0]? with
    | .error issues => .error issues
    | .ok v => .ok [v]
  | .tuple ss, raw => runTupleSchemas ss raw 0

/-- Observable outcome of `executeCommand` up to the handler call: the
text lines pushed to the reply buffer, whether the reply was committed, and
whether the command handler ran (and with what arguments). -/
structure ExecOutcome where
  replyLines : List String
  committed : Bool
  handlerInvoked : Bool
  handlerArgs : List ArgValue
deriving DecidableEq, Repr

/-- `executeCommand`: on a `ZodError`, push `"Invalid arguments:"` and one
`"\n- " + issue.message` line per issue of the thrown error, commit the
reply and return — the handler is never invoked; on success, invoke the
handler with the validated arguments. -/
def executeCommand (args : ArgsDecl) (rawArgs : List String) : ExecOutcome :=
  match validateArgs args rawArgs with
  | .error issues =>
    { replyLines := "Invalid arguments:" :: issues.map (fun m => "\n- " ++ m)
      committed := true
      handlerInvoked := false
      handlerArgs := [] }
  | .ok vs =>
    { replyLines := []
      committed := false
      handlerInvoked := true
      handlerArgs := vs }

/-- How many schema positions fail on the given tokens, counting every
position independently — the claim's notion of "failing fields". -/
def countFailingFields : List ArgSchema → List String → Nat → Nat
  | [], _, _ => 0
  | s :: rest, raw, i =>
    (match s raw[i]? with | .error _ => 1 | .ok _ => 0) +
      countFailingFields rest raw (i + 1)

/-- A concrete model schema (a `z.literal(1)`-like example): accepts only
the token `"1"`, one issue otherwise. -/
def numberSchema : ArgSchema := fun t =>
  match t with
  | some s => if s = "1" then .ok (.num 1) else .error ["Expected number"]
  | none => .error ["Required"]

/-- A tuple validation error is exactly the issue list of the first failing
schema, all earlier schemas having succeeded on their positions. -/
theorem runTupleSchemas_error_first_fail (ss : List ArgSchema) (raw : List String)
    (i : Nat) (issues : List String)
    (h : runTupleSchemas ss raw i = .error issues) :
    ∃ (j : Nat) (s : ArgSchema), ss[j]? = some s ∧ s raw[i + j]? = .error issues ∧
      ∀ k, k < j → ∃ (sk : ArgSchema) (v : ArgValue),
        ss[k]? = some sk ∧ sk raw[i + k]? = .ok v := by
  induction ss generalizing i with
  | nil => exact absurd h (by simp [runTupleSchemas])
  | cons s rest ih =>
    rw [runTupleSchemas] at h
    cases hs : s raw[i]? with
    | error e =>
      rw [hs] at h
      simp only [Except.error.injEq] at h
      subst h
      refine ⟨0, s, by simp, by simpa using hs, ?_⟩
      intro k hk
      exact absurd hk (Nat.not_lt_zero k)
    | ok v =>
      rw [hs] at h
      cases hr : runTupleSchemas rest raw (i + 1) with
      | error e2 =>
        rw [hr] at h
        simp only [Except.error.injEq] at h
        subst h
        obtain ⟨j, sj, hj, hfail, hearlier⟩ := ih (i + 1) hr
        refine ⟨j + 1, sj, ?_, ?_, ?_⟩
        · rw [List.getElem?_cons_succ]
          exact hj
        · have harith : i + 1 + j = i + (j + 1) := by omega
          rw [← harith]
          exact hfail
        · intro k hk
          cases k with
          | zero => exact ⟨s, v, by simp, by simpa using hs⟩
          | succ k2 =>
            obtain ⟨sk, vk, hk1, hk2⟩ := hearlier k2 (Nat.lt_of_succ_lt_succ hk)
            refine ⟨sk, vk, ?_, ?_⟩
            · rw [List.getElem?_cons_succ]
              exact hk1
            · have harith : i + 1 + k2 = i + (k2 + 1) := by omega
              rw [← harith]
              exact hk2
      | ok vs =>
        rw [hr] at h
        exact absurd h (by simp)

/-- Claim C8 (amended): whenever validation of a matched command's
arguments fails, the handler is never invoked, the reply is committed, and
it enumerates `"Invalid arguments:"` followed by one line per issue of the
*first failing field* (for a tuple declaration: the first schema position
whose parse throws; validation aborts there, so later failing fields are
not reported). -/
theorem c8_validation_failure_reports_first_failure
    (args : ArgsDecl) (rawArgs : List String) (issues : List String)
    (hfail : validateArgs args rawArgs = .error issues) :
    (executeCommand args rawArgs).handlerInvoked = false ∧
    (executeCommand args rawArgs).committed = true ∧
    (executeCommand args rawArgs).replyLines =
      "Invalid arguments:" :: issues.map (fun m => "\n- " ++ m) ∧
    (∀ ss, args = .tuple ss →
      ∃ (j : Nat) (s : ArgSchema), ss[j]? = some s ∧
        s rawArgs[j]? = .error issues ∧
        ∀ k, k < j → ∃ (sk : ArgSchema) (v : ArgValue),
          ss[k]? = some sk ∧ sk rawArgs[k]? = .ok v) := by
  refine ⟨?_, ?_, ?_, ?_⟩
  · unfold executeCommand; rw [hfail]
  · unfold executeCommand; rw [hfail]
  · unfold executeCommand; rw [hfail]
  · intro ss hss
    subst hss
    have h2 : runTupleSchemas ss rawArgs 0 = .error issues := hfail
    simpa using runTupleSchemas_error_first_fail ss rawArgs 0 issues h2

/-- Counterexample to Claim C8 as stated: with the tuple
`[numberSchema, numberSchema]` and tokens `["x", "y"]`, *two* fields fail
but the reply enumerates only the first field's single message — the
`Array.prototype.map` aborts at the first `parse` throw, so there is no
"one message per failing field". -/
theorem c8_counterexample :
    countFailingFields [numberSchema, numberSchema] ["x", "y"] 0 = 2 ∧
    (executeCommand (.tuple [numberSchema, numberSchema]) ["x", "y"]).replyLines =
      ["Invalid arguments:", "\n- Expected number"] ∧
    (executeCommand (.tuple [numberSchema, numberSchema]) ["x", "y"]).handlerInvoked
      = false := by
  refine ⟨by decide, by decide, by decide⟩

/-- Witness for C8 (amended), at the counterexample input. -/
theorem c8_witness :
    validateArgs (.tuple [numberSchema, numberSchema]) ["x", "y"] =
      .error ["Expected number"] ∧
    ((executeCommand (.tuple [numberSchema, numberSchema]) ["x", "y"]).handlerInvoked
        = false ∧
      (executeCommand (.tuple [numberSchema, numberSchema]) ["x", "y"]).committed
        = true ∧
      (executeCommand (.tuple [numberSchema, numberSchema]) ["x", "y"]).replyLines =
        "Invalid arguments:" ::
          (["Expected number"].map (fun m => "\n- " ++ m)) ∧
      (∀ ss, (ArgsDecl.tuple [numberSchema, numberSchema]) = .tuple ss →
        ∃ (j : Nat) (s : ArgSchema), ss[j]? = some s ∧
          s (["x", "y"] : List String)[j]? = .error ["Expected number"] ∧
          ∀ k, k < j → ∃ (sk : ArgSchema) (v : ArgValue),
            ss[k]? = some sk ∧
            sk (["x", "y"] : List String)[k]? = .ok v)) :=
  ⟨rfl, c8_validation_failure_reports_first_failure
    (.tuple [numberSchema, numberSchema]) ["x", "y"] ["Expected number"] rfl⟩

/-! ## Context reply builder (`Context.reply` — `commit` and `at`) -/

/-- Outbound message segments, as pushed by the reply builder (the
constructors the verified claims exercise). -/
inductive MsgSeg where
  | text (content : String)
  | atSeg (qq : String)
  | face (id : String)
deriving DecidableEq, Repr

/-- The `Context` state the reply builder reads and writes: the event
identity, the accumulating `reply_message` buffer, the `_isSending` flag
and the two recall timers (both default `-1`). -/
structure ReplyCtx where
  sender_id : Nat
  group_id : Nat
  is_group : Bool
  raw_message_id : Nat
  reply_message : List MsgSeg
  isSending : Bool
  recallTimeout : Int := -1
  recallSenderTimeout : Int := -1
deriving DecidableEq, Repr

/-- The transport client's observable effects: the log of sends (is-group
flag, target id, payload) and the message deletions scheduled by the
recall timers. -/
structure Transport where
  sent : List (Bool × Nat × List MsgSeg)
  scheduledDeletes : List Nat
deriving DecidableEq, Repr

/-- The synchronous first phase of `reply.commit`: the
`if (reply_message.length === 0 || _isSending) return;` guard — when it
fires the whole call returns at once (`none`, no send, no `finally`) —
then `_isSending = true`, copy the buffer and clear it
(`reply_message = []`, "immediately emptied to prevent re-sending"). -/
def commitStart (st : ReplyCtx) : ReplyCtx × Option (List MsgSeg) :=
  if st.reply_message.length = 0 || st.isSending then (st, none)
  else ({ st with isSending := true, reply_message := [] }, some st.reply_message)

/-- The awaited transport send between the two phases:
`sendGroupMessage(group_id, msgCopy)` on a group context, else
`sendPrivateMessage(sender_id, msgCopy)`. -/
def transportSend (tr : Transport) (st : ReplyCtx) (payload : List MsgSeg) : Transport :=
  { tr with sent := tr.sent ++
      [(st.is_group, if st.is_group then st.group_id else st.sender_id, payload)] }

/-- The `finally` phase of `reply.commit`: clear `_isSending`, then
schedule the recall deletions when the timers are set and the send
returned a truthy `message_id`. -/
def commitFinish (st : ReplyCtx) (tr : Transport) (messageId : Nat) :
    ReplyCtx × Transport :=
  let tr1 :=
    if 0 < st.recallTimeout ∧ messageId ≠ 0 then
      { tr with scheduledDeletes := tr.scheduledDeletes ++ [messageId] }
    else tr
  let tr2 :=
    if 0 ≤ st.recallSenderTimeout ∧ messageId ≠ 0 then
      { tr1 with scheduledDeletes := tr1.scheduledDeletes ++ [st.raw_message_id] }
    else tr1
  ({ st with isSending := false }, tr2)

/-- Claim C9: on a Context with a non-empty reply buffer and no send in
flight, two `commit()` calls where the second arrives while the first send
is awaiting produce exactly one transport send (carrying the whole
original buffer); the second call is a guard no-op, and the buffer is
empty at both calls' returns (it is cleared synchronously before the
await).  The schedule modelled: call 1 phase one, then call 2 in its
entirety, then call 1's send and `finally`. -/
theorem c9_commit_idempotent_during_send
    (st : ReplyCtx) (tr : Transport) (messageId : Nat)
    (hne : st.reply_message ≠ [])
    (hns : st.isSending = false) :
    (commitStart st).2 = some st.reply_message ∧
    (commitStart st).1.reply_message = [] ∧
    commitStart (commitStart st).1 = ((commitStart st).1, none) ∧
    (transportSend tr (commitStart st).1 st.reply_message).sent =
      tr.sent ++ [(st.is_group,
        if st.is_group then st.group_id else st.sender_id, st.reply_message)] ∧
    ((commitFinish (commitStart st).1
        (transportSend tr (commitStart st).1 st.reply_message) messageId).1.reply_message
      = []) ∧
    ((commitFinish (commitStart st).1
        (transportSend tr (commitStart st).1 st.reply_message) messageId).1.isSending
      = false) := by
  have hlen : ¬(st.reply_message.length = 0 || st.isSending) = true := by
    simp [hns, List.length_eq_zero, hne]
  have h1 : commitStart st =
      ({ st with isSending := true, reply_message := [] }, some st.reply_message) := by
    rw [commitStart, if_neg hlen]
  refine ⟨?_, ?_, ?_, ?_, ?_, ?_⟩
  · rw [h1]
  · rw [h1]
  · rw [h1, commitStart]
    simp
  · rw [h1, transportSend]
  · rw [h1]
    simp [commitFinish]
  · rw [h1]
    simp [commitFinish]

/-- Witness for C9: a concrete group context with one buffered text
segment. -/
def c9ctx : ReplyCtx :=
  { sender_id := 10, group_id := 77, is_group := true, raw_message_id := 900,
    reply_message := [MsgSeg.text "hi"], isSending := false }

/-- The empty transport log. -/
def Transport.empty : Transport := { sent := [], scheduledDeletes := [] }

/-- Witness for C9, at the concrete context. -/
theorem c9_witness :
    (c9ctx.reply_message ≠ [] ∧ c9ctx.isSending = false) ∧
    ((commitStart c9ctx).2 = some c9ctx.reply_message ∧
      (commitStart c9ctx).1.reply_message = [] ∧
      commitStart (commitStart c9ctx).1 = ((commitStart c9ctx).1, none) ∧
      (transportSend Transport.empty (commitStart c9ctx).1 c9ctx.reply_message).sent =
        Transport.empty.sent ++ [(c9ctx.is_group,
          if c9ctx.is_group then c9ctx.group_id else c9ctx.sender_id,
          c9ctx.reply_message)] ∧
      ((commitFinish (commitStart c9ctx).1
          (transportSend Transport.empty (commitStart c9ctx).1 c9ctx.reply_message)
          42).1.reply_message = []) ∧
      ((commitFinish (commitStart c9ctx).1
          (transportSend Transport.empty (commitStart c9ctx).1 c9ctx.reply_message)
          42).1.isSending = false)) :=
  ⟨⟨by decide, by decide⟩,
    c9_commit_idempotent_during_send c9ctx Transport.empty 42 (by decide) (by decide)⟩

/-- `reply.at(user_id = null)`: on a non-group context, return the builder
without touching anything; on a group context, push one at-segment whose
`qq` is the given user id when it is truthy (non-null and non-zero) and
the sender id otherwise. -/
def replyAt (st : ReplyCtx) (user_id : Option Nat) : ReplyCtx :=
  if !st.is_group then st
  else
    { st with reply_message := st.reply_message ++
        [MsgSeg.atSeg (match user_id with
          | some u => if u ≠ 0 then toString u else toString st.sender_id
          | none => toString st.sender_id)] }

/-- Claim C10: on a private context `reply.at` is a complete no-op — the
state is returned unchanged, every field identical; on a group context it
appends exactly one at-segment to the reply buffer (all other fields
unchanged), targeting the given user id when one is given and truthy, and
defaulting to the sender id when none is given. -/
theorem c10_reply_at_private_noop_group_appends (st : ReplyCtx) (user_id : Option Nat) :
    (st.is_group = false → replyAt st user_id = st) ∧
    (st.is_group = true →
      ∃ q, replyAt st user_id =
          { st with reply_message := st.reply_message ++ [MsgSeg.atSeg q] } ∧
        (user_id = none → q = toString st.sender_id) ∧
        (∀ u, user_id = some u → u ≠ 0 → q = toString u)) := by
  constructor
  · intro hpriv
    unfold replyAt
    rw [if_pos (by simp [hpriv])]
  · intro hgrp
    refine ⟨(match user_id with
      | some u => if u ≠ 0 then toString u else toString st.sender_id
      | none => toString st.sender_id), ?_, ?_, ?_⟩
    · unfold replyAt
      rw [if_neg (by simp [hgrp])]
    · intro hnone
      rw [hnone]
    · intro u hu hu0
      rw [hu]
      simp [hu0]

/-- Witness for C10: a private context is untouched (even with an explicit
user id), and a group context with no user id gets one at-segment naming
the sender. -/
theorem c10_witness :
    replyAt
      { sender_id := 3, group_id := 0, is_group := false, raw_message_id := 1,
        reply_message := [], isSending := false } (some 7) =
      { sender_id := 3, group_id := 0, is_group := false, raw_message_id := 1,
        reply_message := [], isSending := false } ∧
    ∃ q, replyAt
        { sender_id := 3, group_id := 9, is_group := true, raw_message_id := 1,
          reply_message := [MsgSeg.text "yo"], isSending := false } none =
        { sender_id := 3, group_id := 9, is_group := true, raw_message_id := 1,
          reply_message := [MsgSeg.text "yo", MsgSeg.atSeg q], isSending := false } ∧
      ((none : Option Nat) = none → q = toString (3 : Nat)) ∧
      (∀ u, (none : Option Nat) = some u → u ≠ 0 → q = toString u) :=
  ⟨(c10_reply_at_private_noop_group_appends
      { sender_id := 3, group_id := 0, is_group := false, raw_message_id := 1,
        reply_message := [], isSending := false } (some 7)).1 rfl,
    (c10_reply_at_private_noop_group_appends
      { sender_id := 3, group_id := 9, is_group := true, raw_message_id := 1,
        reply_message := [MsgSeg.text "yo"], isSending := false } none).2 rfl⟩
